import Mathlib

/-!
Verification of the capture-routing and dynamic-schema-mapping pipeline of
the notion-capture repository.  Python sources are shallowly embedded:
dictionaries become association lists (`List (String × _)`), Python `None`
and JSON null become `Option`/`PyValue.none`, floats become `ℚ` (the code
performs no float arithmetic beyond parsing and exact threshold
comparisons), and every external call (HTTP, the reasoning model) is an
explicit input to the embedded function.
-/

namespace NotionCapture

/-!
String primitives.  The embeddings below use these `List Char` based
helpers (a `String` is a structure over its character list) instead of
the positional core-library versions, so that every definition reduces
inside the kernel; each mirrors the corresponding Python string
operation character-wise, which is also Python's unit of slicing.
-/

/-- Python slicing `s[:n]`. -/
def strTake (s : String) (n : ℕ) : String := ⟨s.data.take n⟩

/-- Python `c in s` for a single character. -/
def strContainsChar (s : String) (c : Char) : Bool := s.data.contains c

/-- Python `s.endswith(suffix)`. -/
def strEndsWith (s suffix : String) : Bool := decide (suffix.data <:+ s.data)

/-- Python `s.lower()` (ASCII case folding). -/
def strLower (s : String) : String := ⟨s.data.map Char.toLower⟩

/-- Python `s.strip()`. -/
def strStrip (s : String) : String :=
  ⟨((s.data.dropWhile Char.isWhitespace).reverse.dropWhile Char.isWhitespace).reverse⟩

/-- Split a character list at every occurrence of `c` (Python
`s.split(c)` semantics, always at least one piece). -/
def splitOnChar (c : Char) : List Char → List (List Char)
  | [] => [[]]
  | x :: xs =>
    let r := splitOnChar c xs
    if x = c then [] :: r
    else
      match r with
      | h :: t => (x :: h) :: t
      | [] => [[x]]

/-- Python `sep.join(xs)`. -/
def strIntercalate (sep : String) : List String → String
  | [] => ""
  | [x] => x
  | x :: xs => x ++ sep ++ strIntercalate sep xs

/-- A Python runtime value as it can reach the property codec:
a string, a float, a bool, a list, or `None`. -/
inductive PyValue where
  | str (s : String)
  | num (q : ℚ)
  | bool (b : Bool)
  | list (xs : List PyValue)
  | none

/-- Stand-in for CPython's `str(float)` rendering.  No claim depends on the
exact digits produced for a numeric value. -/
def floatStr (q : ℚ) : String := toString q

mutual

/-- Embedding of Python `str(value)`.  Strings render as themselves (the
only case the claims exercise); numbers, booleans, `None` and lists follow
CPython's conventions, with `repr` quoting of nested strings approximated
by `\x27`-wrapping. -/
def pyStr : PyValue → String
  | .str s => s
  | .num q => floatStr q
  | .bool b => if b then "True" else "False"
  | .none => "None"
  | .list xs => "[" ++ strIntercalate ", " (pyReprList xs) ++ "]"

/-- `repr` of each element of a list, as `str(list)` shows them. -/
def pyReprList : List PyValue → List String
  | [] => []
  | x :: xs => pyReprOne x :: pyReprList xs

/-- `repr(value)` for a list element: like `pyStr` but strings are quoted. -/
def pyReprOne : PyValue → String
  | .str s => "\x27" ++ s ++ "\x27"
  | v => pyStr v

end

/-- Decimal value of a digit list. -/
def digitsToNat (cs : List Char) : ℕ :=
  cs.foldl (fun n c => n * 10 + (c.toNat - 48)) 0

/-- Parse a decimal literal the way Python `float(str)` accepts plain
decimal notation: optional surrounding whitespace, optional sign, digits
with at most one point and at least one digit overall.  (Exponents,
`inf`, `nan` and underscores are not modelled; no claim touches them.) -/
def parseFloat? (s : String) : Option ℚ :=
  let t := (strStrip s).data
  let (sign, body) : ℚ × List Char :=
    match t with
    | c :: rest =>
      if c = '-' then (-1, rest)
      else if c = '+' then (1, rest)
      else (1, c :: rest)
    | [] => (1, [])
  match splitOnChar '.' body with
  | [i] =>
      if i.length > 0 ∧ i.all Char.isDigit then
        some (sign * (digitsToNat i : ℚ))
      else Option.none
  | [i, f] =>
      if (i.length > 0 ∨ f.length > 0) ∧ i.all Char.isDigit ∧ f.all Char.isDigit then
        some (sign * ((digitsToNat i : ℚ) + (digitsToNat f : ℚ) / 10 ^ f.length))
      else Option.none
  | _ => Option.none

/-- Embedding of Python `float(value)`: numbers pass through, booleans
coerce to 0/1, strings parse, lists raise `TypeError` (`none` here),
`None` raises as well. -/
def pyFloat : PyValue → Option ℚ
  | .num q => some q
  | .bool b => some (if b then 1 else 0)
  | .str s => parseFloat? s
  | .list _ => Option.none
  | .none => Option.none

/-- The slice of a Notion property-schema dictionary that the codec and
mapper read: `prop_info.get("type")` and `prop_info.get("options", [])`.
`fetch_database_properties` always populates both keys; an absent key is
the `Option.none` / `[]` default. -/
structure PropInfo where
  type : Option String := Option.none
  options : List String := []
deriving DecidableEq, Repr

/-- A built Notion property value, mirroring the JSON shapes produced by
`build_property_value` (for example `.select n` stands for the dictionary
with key "select" holding the name `n`).  Every constructor denotes a
non-empty Python dictionary, hence a truthy value. -/
inductive NotionValue where
  | title (content : String)
  | richText (content : String)
  | number (q : ℚ)
  | select (name : String)
  | multiSelect (tags : List String)
  | status (name : String)
  | date (start : String)
  | checkbox (b : Bool)
  | url (s : String)
  | email (s : String)
  | phone (s : String)
deriving DecidableEq, Repr

/-- Embedding of `build_property_value` from
`app/services/notion/properties.py`. -/
def build_property_value (prop_type : String) (value : PyValue)
    (prop_info : PropInfo) : Option NotionValue :=
  match value with
  | PyValue.none => Option.none
  | _ =>
    if prop_type = "title" then
      some (.title (strTake (pyStr value) 2000))
    else if prop_type = "rich_text" then
      some (.richText (strTake (pyStr value) 2000))
    else if prop_type = "number" then
      (pyFloat value).map NotionValue.number
    else if prop_type = "select" then
      let options := prop_info.options
      let str_value := strStrip (pyStr value)
      match options.find? (fun opt => strLower opt = strLower str_value) with
      | some opt => some (.select opt)
      | Option.none => some (.select (strTake str_value 100))
    else if prop_type = "multi_select" then
      match value with
      | .list xs => some (.multiSelect ((xs.take 10).map (fun t => strTake (pyStr t) 100)))
      | _ => some (.multiSelect [strTake (pyStr value) 100])
    else if prop_type = "status" then
      let options := prop_info.options
      let str_value := strStrip (pyStr value)
      match options.find? (fun opt => strLower opt = strLower str_value) with
      | some opt => some (.status opt)
      | Option.none =>
        match options with
        | o :: _ => some (.status o)
        | [] => Option.none
    else if prop_type = "date" then
      let date_str := pyStr value
      if strContainsChar date_str 'T' then
        if strContainsChar date_str '+' ∨ strEndsWith date_str "Z" then
          some (.date date_str)
        else
          some (.date (strTake date_str 19))
      else
        some (.date (strTake date_str 10))
    else if prop_type = "checkbox" then
      match value with
      | .bool b => some (.checkbox b)
      | _ => some (.checkbox (["true", "yes", "1"].contains (strLower (pyStr value))))
    else if prop_type = "url" then
      some (.url (pyStr value))
    else if prop_type = "email" then
      some (.email (pyStr value))
    else if prop_type = "phone_number" then
      some (.phone (pyStr value))
    else
      Option.none

/-- Embedding of `_convert_to_notion_value` from
`app/services/ai/property_mapper.py`, the second copy of the codec (its
source differs from `build_property_value` only in local naming, log text
and the breadth of the exception clause around `float`, none of which
affects the returned value). -/
def convert_to_notion_value (prop_type : String) (value : PyValue)
    (prop_info : PropInfo) : Option NotionValue :=
  match value with
  | PyValue.none => Option.none
  | _ =>
    if prop_type = "title" then
      some (.title (strTake (pyStr value) 2000))
    else if prop_type = "rich_text" then
      some (.richText (strTake (pyStr value) 2000))
    else if prop_type = "number" then
      (pyFloat value).map NotionValue.number
    else if prop_type = "select" then
      let options := prop_info.options
      let str_val := strStrip (pyStr value)
      match options.find? (fun opt => strLower opt = strLower str_val) with
      | some opt => some (.select opt)
      | Option.none => some (.select (strTake str_val 100))
    else if prop_type = "multi_select" then
      match value with
      | .list xs => some (.multiSelect ((xs.take 10).map (fun t => strTake (pyStr t) 100)))
      | _ => some (.multiSelect [strTake (pyStr value) 100])
    else if prop_type = "status" then
      let options := prop_info.options
      let str_val := strStrip (pyStr value)
      match options.find? (fun opt => strLower opt = strLower str_val) with
      | some opt => some (.status opt)
      | Option.none =>
        match options with
        | o :: _ => some (.status o)
        | [] => Option.none
    else if prop_type = "date" then
      let date_str := pyStr value
      if strContainsChar date_str 'T' then
        if strContainsChar date_str '+' ∨ strEndsWith date_str "Z" then
          some (.date date_str)
        else
          some (.date (strTake date_str 19))
      else
        some (.date (strTake date_str 10))
    else if prop_type = "checkbox" then
      match value with
      | .bool b => some (.checkbox b)
      | _ => some (.checkbox (["true", "yes", "1"].contains (strLower (pyStr value))))
    else if prop_type = "url" then
      some (.url (pyStr value))
    else if prop_type = "email" then
      some (.email (pyStr value))
    else if prop_type = "phone_number" then
      some (.phone (pyStr value))
    else
      Option.none

/-- The outcome of one call to the reasoning collaborator, as the
try/except + JSON-extraction code observes it: a parsed structured reply
(`ok`), a response from which no JSON object could be extracted
(`parseFailed`, when `ai_response.find` / `rfind` locate no braces), or an
exception anywhere in the call (`transportError`). -/
inductive AIOutcome (α : Type) where
  | ok (a : α)
  | parseFailed
  | transportError (msg : String)

/-- One element of the reply's "mappings" list, with each `.get` default
already applied except where the source distinguishes presence
(`mapping.get("property")` can be absent/None, modelled `Option.none`;
an absent or null "value" is `PyValue.none`). -/
structure MapMapping where
  property : Option String := Option.none
  value : PyValue := PyValue.none
  source : Option String := Option.none
  reasoning : Option String := Option.none

/-- The parsed JSON object of the property-mapper reply, with `.get`
defaults applied (`mappings` default `[]`, `unmapped_properties` default
`[]`, `overall_reasoning` default `""`). -/
structure MapReplyParsed where
  mappings : List MapMapping := []
  unmapped_properties : List String := []
  overall_reasoning : String := ""

/-- One entry of a `left_empty` list.  The source is heterogeneous:
the no-client fallback emits bare property names, the reply path emits
`property`/`type` dictionaries, and the orchestrator's
"Notion not connected" path emits a `reason`-only dictionary. -/
inductive LeftEmptyEntry where
  | nameOnly (property : String)
  | withType (property : String) (type : String)
  | reasonOnly (reason : String)
deriving DecidableEq, Repr

/-- One entry of the mapper's `filled_from_user` list. -/
structure FilledFromUser where
  property : String
  value : String
  source : String
  reasoning : String
  type : String
deriving DecidableEq, Repr

/-- The dictionary returned by `map_properties_dynamically`. -/
structure MappingOutcome where
  properties : List (String × NotionValue)
  filled_from_user : List FilledFromUser
  left_empty : List LeftEmptyEntry
  ai_reasoning : String
deriving DecidableEq, Repr

/-- Python dictionary assignment `m[k] = v` on an association list:
overwrite in place if the key exists, else append. -/
def dictSet {α : Type} (m : List (String × α)) (k : String) (v : α) :
    List (String × α) :=
  if m.any (fun p => p.1 = k) then
    m.map (fun p => if p.1 = k then (k, v) else p)
  else
    m ++ [(k, v)]

/-- The auto-generated Notion property types skipped by the mapper. -/
def autoGeneratedTypes : List String :=
  ["formula", "rollup", "created_time", "created_by", "last_edited_time", "last_edited_by"]

/-- One entry of the `props_info` offer list sent to the reasoning
collaborator (name, type, and for option-bearing types up to 20 allowed
options; a falsy options list becomes JSON null). -/
structure PropOffer where
  name : String
  type : String
  options : Option (List String)
deriving DecidableEq, Repr

/-- The offer-list construction of `map_properties_dynamically`
(property_mapper.py lines 108-118): every property whose
`.get("type", "unknown")` is auto-generated is skipped. -/
def props_info (database_properties : List (String × PropInfo)) : List PropOffer :=
  (database_properties.filter
      (fun p => ¬ autoGeneratedTypes.contains (p.2.type.getD "unknown"))).map
    (fun p =>
      { name := p.1
        type := p.2.type.getD "unknown"
        options := if p.2.options.isEmpty then Option.none
                   else some (p.2.options.take 20) })

/-- Python `value is None`. -/
def pyIsNone : PyValue → Bool
  | PyValue.none => true
  | _ => false

/-- The body of the `for mapping in result.get("mappings", [])` loop of
`map_properties_dynamically`: a proposal is kept only when its property
name is truthy, its value is non-null, the name is a key of the schema,
and the codec produces a (truthy) value for it. -/
def mapper_step (database_properties : List (String × PropInfo))
    (acc : List (String × NotionValue) × List FilledFromUser)
    (mapping : MapMapping) :
    List (String × NotionValue) × List FilledFromUser :=
  match mapping.property with
  | Option.none => acc
  | some prop_name =>
    if prop_name = "" then acc
    else if pyIsNone mapping.value then acc
    else
      match List.lookup prop_name database_properties with
      | Option.none => acc
      | some prop_info =>
        match convert_to_notion_value (prop_info.type.getD "rich_text") mapping.value prop_info with
        | Option.none => acc
        | some nv =>
          (dictSet acc.1 prop_name nv,
           acc.2 ++ [{ property := prop_name
                       value := strTake (pyStr mapping.value) 100
                       source := mapping.source.getD "ai"
                       reasoning := mapping.reasoning.getD ""
                       type := prop_info.type.getD "rich_text" }])

/-- Embedding of `map_properties_dynamically` from
`app/services/ai/property_mapper.py`.  `clientAvailable` is
`get_openai_client()` being non-None; `reply` is the observed outcome of
the chat-completion call plus JSON extraction.  Prompt construction has no
effect on the returned value and is not modelled. -/
def map_properties_dynamically (clientAvailable : Bool)
    (reply : AIOutcome MapReplyParsed)
    (database_properties : List (String × PropInfo)) : MappingOutcome :=
  if ¬ clientAvailable then
    { properties := []
      filled_from_user := []
      left_empty := database_properties.map (fun p => .nameOnly p.1)
      ai_reasoning := "OpenAI not available" }
  else
    match reply with
    | .transportError e =>
        { properties := [], filled_from_user := [], left_empty := [], ai_reasoning := e }
    | .parseFailed =>
        { properties := [], filled_from_user := [], left_empty := [], ai_reasoning := "Parse failed" }
    | .ok result =>
        let mapped := result.mappings.foldl (mapper_step database_properties) ([], [])
        { properties := mapped.1
          filled_from_user := mapped.2
          left_empty :=
            (result.unmapped_properties.filter
                (fun p => (List.lookup p database_properties).isSome)).map
              (fun p =>
                .withType p
                  (((List.lookup p database_properties).getD {}).type.getD "unknown"))
          ai_reasoning := result.overall_reasoning }

/-- The parsed JSON object of the database-selector reply, with `.get`
defaults applied (`found_match` default false, `selected_index` default
None, `confidence` default 0.0, `reason` default "No reason provided").
A reply whose confidence is not float-coercible raises and is a
`transportError` instead. -/
structure SelectorReplyParsed where
  found_match : Bool := false
  selected_index : Option Int := Option.none
  confidence : ℚ := 0
  reason : String := "No reason provided"

/-- A Notion database candidate as assembled by `fetch_databases`:
id, title, and the property schema keyed by name. -/
structure Database where
  id : String := ""
  title : String := "Untitled"
  properties : List (String × PropInfo) := []
deriving DecidableEq, Repr

/-- The dictionary returned by `select_best_database`. -/
structure SelectResult where
  success : Bool
  database : Option Database
  reason : String
  confidence : ℚ

/-- Embedding of `select_best_database` from
`app/services/ai/database_selector.py`. -/
def select_best_database (clientAvailable : Bool)
    (reply : AIOutcome SelectorReplyParsed)
    (databases : List Database) : SelectResult :=
  if databases.isEmpty then
    { success := false
      database := Option.none
      reason := "No databases available. Please share a Notion page with databases."
      confidence := 0 }
  else if ¬ clientAvailable then
    { success := true
      database := databases.head?
      reason := "OpenAI not configured - using first database"
      confidence := 3 / 10 }
  else
    match reply with
    | .transportError e =>
        { success := false, database := Option.none, reason := e, confidence := 0 }
    | .parseFailed =>
        { success := false, database := Option.none, reason := "Parse failed", confidence := 0 }
    | .ok r =>
        match r.selected_index with
        | some i =>
          if r.found_match ∧ 0 ≤ i ∧ i < databases.length ∧ r.confidence ≥ 1 / 2 then
            { success := true
              database := databases.get? i.toNat
              reason := r.reason
              confidence := r.confidence }
          else
            { success := false, database := Option.none, reason := r.reason, confidence := r.confidence }
        | Option.none =>
          { success := false, database := Option.none, reason := r.reason, confidence := r.confidence }

/-- Python's substring test `sub in s`. -/
def strContainsSub (sub s : String) : Bool :=
  decide (sub.toList <:+: s.toList)

/-- Embedding of `detect_log_database` from
`app/services/notion/databases.py`: the id of the first candidate whose
lowercased title contains one of the log indicators as a substring. -/
def detect_log_database (databases : List Database) : Option String :=
  let log_indicators := ["log", "logs", "activity", "history", "journal"]
  (databases.find? (fun db =>
      log_indicators.any (fun ind => strContainsSub ind (strLower db.title)))).map
    (fun db => db.id)

/-- One entry of the `filled_by_ai` list built by
`apply_enriched_properties`. -/
structure FilledByAI where
  property : String
  value : String
  type : String
deriving DecidableEq, Repr

/-- The dictionary returned by `apply_enriched_properties`. -/
structure EnrichApplyResult where
  properties : List (String × NotionValue)
  filled_by_ai : List FilledByAI

/-- The body of the `for prop_name, value in enriched_data.items()` loop
of `apply_enriched_properties`: null values are skipped, the rest are
encoded against the field's schema (missing schema entries default to an
empty dictionary, hence type "rich_text") and kept only when the codec
yields a (truthy) value. -/
def enrich_step (properties_schema : List (String × PropInfo))
    (acc : EnrichApplyResult) (pv : String × PyValue) : EnrichApplyResult :=
  if pyIsNone pv.2 then acc
  else
    match build_property_value (((List.lookup pv.1 properties_schema).getD {}).type.getD "rich_text")
        pv.2 ((List.lookup pv.1 properties_schema).getD {}) with
    | some nv =>
        { properties := dictSet acc.properties pv.1 nv
          filled_by_ai := acc.filled_by_ai ++
            [{ property := pv.1, value := strTake (pyStr pv.2) 100
               type := ((List.lookup pv.1 properties_schema).getD {}).type.getD "rich_text" }] }
    | Option.none => acc

/-- Embedding of `apply_enriched_properties` from
`app/services/notion/properties.py`: starting from a copy of the existing
mapping, each non-null enriched value that encodes successfully (to a
truthy value) under its field's schema overwrites that field; everything
else is left untouched.  The embedding is pure, so the caller's
`existing_properties` is never mutated. -/
def apply_enriched_properties (existing_properties : List (String × NotionValue))
    (enriched_data : List (String × PyValue))
    (properties_schema : List (String × PropInfo)) : EnrichApplyResult :=
  enriched_data.foldl (enrich_step properties_schema)
    { properties := existing_properties, filled_by_ai := [] }

/-- A timezone-naive local datetime with the fields Python's
`datetime.replace` manipulates; `day` is a day ordinal so that hour
arithmetic can carry. -/
structure LocalDateTime where
  day : ℤ := 0
  hour : ℕ := 0
  minute : ℕ := 0
  second : ℕ := 0
  microsecond : ℕ := 0
deriving DecidableEq, Repr

/-- `dt + timedelta(hours=h)`. -/
def addHours (dt : LocalDateTime) (h : ℕ) : LocalDateTime :=
  { dt with day := dt.day + ((dt.hour + h) / 24 : ℕ), hour := (dt.hour + h) % 24 }

/-- The `event_data` dictionary handed to `create_calendar_event`.  Its
only caller (`process_capture_result`) always populates every key, so a
key present with value None is `Option.none`. -/
structure EventData where
  category : Option String := Option.none
  title : Option String := Option.none
  description : Option String := Option.none
  start_date : Option String := Option.none
  end_date : Option String := Option.none
  start_time : Option String := Option.none
  end_time : Option String := Option.none
  location : Option String := Option.none

/-- Python `a or b` on optional strings: `b` when `a` is None or empty. -/
def pyOr (a b : Option String) : Option String :=
  if a.getD "" = "" then b else a

/-- The event object built for the calendar collaborator, with the local
start/end window kept as parsed (the serialization to UTC ISO strings for
the wire is an order-preserving rendering done at the API boundary). -/
structure CalendarEventRecord where
  summary : String
  description : Option String
  startLocal : LocalDateTime
  endLocal : LocalDateTime
  timeZone : String
  location : Option String
deriving DecidableEq, Repr

/-- What the embedded calendar router produces: an error result, or the
fully built event record handed to the external insert call. -/
inductive CalendarOutcome where
  | failure (error : String)
  | created (event : CalendarEventRecord)
deriving DecidableEq, Repr

/-- Embedding of `create_calendar_event` from
`app/services/google/calendar.py` up to the external insert call.
`credentialsValid` is `build_credentials_from_tokens` succeeding with
valid credentials; `parse` is `parse_datetime_string` applied with the
local timezone (its `datetime.fromisoformat` core is Python stdlib, so it
enters the embedding as an oracle); `local_now` is `datetime.now().astimezone()`
and `tz_name` the `_get_timezone_name` result. -/
def create_calendar_event (credentialsValid : Bool)
    (parse : Option String → Option LocalDateTime)
    (local_now : LocalDateTime) (tz_name : String)
    (event_data : EventData) : CalendarOutcome :=
  if ¬ credentialsValid then
    .failure "Google Calendar not connected or credentials invalid"
  else if event_data.category.getD "" ≠ "event" then
    .failure ("Cannot sync category \x27" ++ event_data.category.getD "" ++
      "\x27 to Google Calendar. Only \x27event\x27 category is supported.")
  else
    let start_time := pyOr event_data.start_date event_data.start_time
    let end_time := pyOr event_data.end_date event_data.end_time
    let start_dt :=
      match parse start_time with
      | some dt => dt
      | Option.none => { local_now with hour := 9, minute := 0, second := 0, microsecond := 0 }
    let end_dt :=
      match parse end_time with
      | some dt => dt
      | Option.none => addHours start_dt 1
    .created
      { summary := event_data.title.getD "Untitled Event"
        description := event_data.description
        startLocal := start_dt
        endLocal := end_dt
        timeZone := tz_name
        location :=
          match event_data.location with
          | some l => if l = "" then Option.none else some l
          | Option.none => Option.none }

/-- The slice of the classification dictionary (`analysis`) that
`process_capture_result` and its callees read.  `.get` with a default is
`Option.getD` at the use site. -/
structure Analysis where
  category : Option String := Option.none
  title : Option String := Option.none
  description : Option String := Option.none
  start_time : Option String := Option.none
  end_time : Option String := Option.none
  location : Option String := Option.none
  ai_confidence : Option ℚ := Option.none
  raw_input : Option String := Option.none

/-- Python truthiness of an optional string: not None and not empty. -/
def truthyStr (o : Option String) : Bool :=
  o.getD "" != ""

/-- An entry of `summary["filled_from_user"]`: the event branch pushes
`field`/`value` pairs, the Notion branch stores the mapper's richer
records. -/
inductive FilledEntry where
  | eventField (field : String) (value : Option String)
  | fromUser (f : FilledFromUser)
deriving DecidableEq, Repr

/-- The `summary` dictionary assembled by the orchestrator; keys that are
only ever added on some paths are `Option` fields defaulting to None. -/
structure CaptureSummary where
  destination : Option String := Option.none
  database : Option String := Option.none
  filled_from_user : List FilledEntry := []
  filled_by_ai : List FilledByAI := []
  left_empty : List LeftEmptyEntry := []
  assumptions : List String := []
  database_selection_failed : Option Bool := Option.none
  database_selection_reason : Option String := Option.none
  database_selection_confidence : Option ℚ := Option.none
  mapping_reasoning : Option String := Option.none

/-- `result["event_info"]`. -/
structure EventInfo where
  title : String
  calendar_event_id : Option String
  calendar_link : Option String
  start_time : Option String
  end_time : Option String
  location : Option String

/-- `result["notion_info"]`. -/
structure NotionInfo where
  page_id : Option String
  page_url : Option String
  database : String

/-- The dictionary returned by the external `create_calendar_event` call
as the orchestrator reads it. -/
structure CalSyncResult where
  success : Bool := false
  calendar_event_id : Option String := Option.none
  calendar_link : Option String := Option.none
  error : Option String := Option.none

/-- The dictionary returned by `NotionClient.create_page`. -/
structure CreatePageResult where
  success : Bool := false
  page_id : Option String := Option.none
  page_url : Option String := Option.none
  error : Option String := Option.none

/-- A connectivity snapshot from `google_auth_status` /
`notion_auth_status` (both perform network probes, hence oracles). -/
structure AuthStatus where
  connected : Bool := false
  error : Option String := Option.none

/-- The arguments of one `write_log_entry` call (its Notion write is
external; the orchestrator ignores its return value). -/
structure LogData where
  action : String
  timestamp : String
  result : String
  database : String
  details : String
deriving DecidableEq, Repr

/-- The top-level result dictionary of `process_capture_result`. -/
structure CaptureResult where
  status : String
  category : String
  title : String
  source_type : String
  ai_confidence : ℚ
  calendar_event_created : Option Bool := Option.none
  calendar_error : Option String := Option.none
  event_info : Option EventInfo := Option.none
  notion_created : Option Bool := Option.none
  notion_error : Option String := Option.none
  notion_info : Option NotionInfo := Option.none
  summary : CaptureSummary
  google_status : AuthStatus
  notion_status : AuthStatus

/-- Every external interaction one orchestration run can perform, passed
in explicitly: the document-store candidate list and schema fetches, the
two reasoning calls (availability plus observed reply), the enrichment
sub-collaborators (their outputs are consumed opaquely, keyed by the
empty-field list they were shown), page creation, the calendar sync call,
the wall clock, and the two connectivity probes. -/
structure Collaborators where
  fetch_databases : List Database
  selectorClientAvailable : Bool
  selectorReply : AIOutcome SelectorReplyParsed
  fetch_database_properties : String → List (String × PropInfo)
  mapperClientAvailable : Bool
  mapperReply : AIOutcome MapReplyParsed
  identify_researchable : List LeftEmptyEntry → List String
  enrich : List String → List (String × PyValue)
  create_page : String → List (String × NotionValue) → CreatePageResult
  calendar_sync : EventData → CalSyncResult
  now_iso : String
  google_status : AuthStatus
  notion_status : AuthStatus

/-- `p.get("property")` on a `left_empty` entry.  (On the bare-string
entries of the no-client fallback the Python attribute access could not
even run, but on that path the enrichment stage returns `[]` before the
only consumer of this accessor is reached.) -/
def leftEmptyProperty? : LeftEmptyEntry → Option String
  | .nameOnly p => some p
  | .withType p _ => some p
  | .reasonOnly _ => Option.none

/-- The `f"{p['property']}={p.get('value', '')[:30]}"` log rendering of a
`filled_from_user` entry.  In the Notion branch, where alone it is used,
every entry is a `fromUser` record. -/
def filledEntryLog : FilledEntry → String
  | .fromUser f => f.property ++ "=" ++ strTake f.value 30
  | .eventField fld v => fld ++ "=" ++ strTake (v.getD "") 30

/-- The Notion ("other" category) branch of `process_capture_result`
(capture.py lines 101-265), returning the result together with the list
of `write_log_entry` calls attempted. -/
def process_notion_branch (analysis : Analysis) (title : String)
    (notion_api_key : Option String) (c : Collaborators)
    (base : CaptureResult) : CaptureResult × List LogData :=
  let nsummary := { base.summary with destination := some "Notion" }
  if ¬ truthyStr notion_api_key then
    ({ base with
        notion_created := some false
        notion_error := some "Notion not connected. Please add your API key in settings."
        summary := { nsummary with
                     left_empty := nsummary.left_empty ++ [.reasonOnly "Notion not connected"] } },
     [])
  else
    let databases := c.fetch_databases
    if databases.isEmpty then
      ({ base with
          summary := nsummary
          notion_created := some false
          notion_error := some "No Notion databases found. Please share databases with your integration." },
       [])
    else
      let db_selection := select_best_database c.selectorClientAvailable c.selectorReply databases
      let log_db_id := detect_log_database databases
      if ¬ db_selection.success then
        let db_names := databases.map (fun db => db.title)
        let failure_details :=
          "FAILURE: No suitable database. Raw input: \x27" ++ analysis.raw_input.getD "" ++
          "\x27. Available DBs: " ++ strIntercalate ", " db_names ++
          ". Reason: " ++ db_selection.reason
        let writes : List LogData :=
          match log_db_id with
          | some _ =>
            [{ action := "FAILED: " ++ title, timestamp := c.now_iso
               result := "Failed", database := "None (no match)"
               details := failure_details }]
          | Option.none => []
        ({ base with
            notion_created := some false
            notion_error := some ("No suitable database found: " ++ db_selection.reason)
            summary := { nsummary with
                         database_selection_failed := some true
                         database_selection_reason := some db_selection.reason } },
         writes)
      else
        let selected_db := db_selection.database.getD {}
        let db_id := selected_db.id
        let db_title := selected_db.title
        let summary1 := { nsummary with
                          database := some db_title
                          database_selection_reason := some db_selection.reason
                          database_selection_confidence := some db_selection.confidence }
        let properties := c.fetch_database_properties db_id
        let mapping := map_properties_dynamically c.mapperClientAvailable c.mapperReply properties
        let summary2 := { summary1 with
                          filled_from_user := mapping.filled_from_user.map FilledEntry.fromUser
                          left_empty := mapping.left_empty
                          mapping_reasoning := some mapping.ai_reasoning }
        let enrichState :=
          if mapping.left_empty.isEmpty then (mapping.properties, summary2)
          else
            let researchable := c.identify_researchable mapping.left_empty
            if researchable.isEmpty then (mapping.properties, summary2)
            else
              let enriched := c.enrich researchable
              if enriched.isEmpty then (mapping.properties, summary2)
              else
                let er := apply_enriched_properties mapping.properties enriched properties
                let ai_filled_names := er.filled_by_ai.map (fun p => p.property)
                (er.properties,
                 { summary2 with
                   filled_by_ai := er.filled_by_ai
                   left_empty := summary2.left_empty.filter
                     (fun p =>
                       match leftEmptyProperty? p with
                       | some n => ¬ ai_filled_names.contains n
                       | Option.none => true) })
        let mapped_properties := enrichState.1
        let summary3 := enrichState.2
        let create_result := c.create_page db_id mapped_properties
        if create_result.success then
          let filled_props := summary3.filled_from_user.map filledEntryLog
          let ai_props := summary3.filled_by_ai.map (fun p => p.property ++ "=" ++ p.value)
          let log_details :=
            "SUCCESS. Raw input: \x27" ++ analysis.raw_input.getD "" ++
            "\x27. Database: " ++ db_title ++
            ". Mapped: " ++ (if filled_props.isEmpty then "None" else strIntercalate ", " filled_props) ++
            ". AI-researched: " ++ (if ai_props.isEmpty then "None" else strIntercalate ", " ai_props) ++ "."
          let writes : List LogData :=
            match log_db_id with
            | some _ =>
              [{ action := "Created: " ++ title, timestamp := c.now_iso
                 result := "Success", database := db_title, details := log_details }]
            | Option.none => []
          ({ base with
              notion_created := some true
              notion_info := some { page_id := create_result.page_id
                                    page_url := create_result.page_url
                                    database := db_title }
              summary := summary3 },
           writes)
        else
          let failure_details :=
            "FAILURE: Page creation error. Raw input: \x27" ++ analysis.raw_input.getD "" ++
            "\x27. Database: " ++ db_title ++
            ". Error: " ++ create_result.error.getD ""
          let writes : List LogData :=
            match log_db_id with
            | some _ =>
              [{ action := "FAILED: " ++ title, timestamp := c.now_iso
                 result := "Failed", database := db_title, details := failure_details }]
            | Option.none => []
          ({ base with
              notion_created := some false
              notion_error := some (create_result.error.getD "Unknown error")
              summary := summary3 },
           writes)

/-- Embedding of `process_capture_result` from `app/services/capture.py`:
routing by category, the calendar branch, the Notion branch, and the
final connectivity snapshot.  The second component lists the
`write_log_entry` (audit) calls attempted, in order. -/
def process_capture_result (analysis : Analysis) (source_type : String)
    (notion_api_key : Option String) (google_tokens_present : Bool)
    (c : Collaborators) : CaptureResult × List LogData :=
  let category := analysis.category.getD "other"
  let title := analysis.title.getD "Untitled"
  let summary0 : CaptureSummary := {}
  let base : CaptureResult :=
    { status := "success", category := category, title := title
      source_type := source_type
      ai_confidence := analysis.ai_confidence.getD 0
      summary := summary0
      google_status := c.google_status
      notion_status := c.notion_status }
  if category = "event" then
    let event_summary := { summary0 with destination := some "Google Calendar" }
    let event_data : EventData :=
      { category := some "event", title := some title
        description := analysis.description
        start_time := analysis.start_time, end_time := analysis.end_time
        location := analysis.location }
    if ¬ google_tokens_present then
      ({ base with
          summary := event_summary
          calendar_event_created := some false
          calendar_error := some "Google Calendar not connected. Please connect in settings." },
       [])
    else
      let sync := c.calendar_sync event_data
      if sync.success then
        let filled :=
          [FilledEntry.eventField "title" (some title),
           FilledEntry.eventField "start_time" analysis.start_time] ++
          (if truthyStr analysis.end_time then [FilledEntry.eventField "end_time" analysis.end_time] else []) ++
          (if truthyStr analysis.location then [FilledEntry.eventField "location" analysis.location] else [])
        ({ base with
            summary := { event_summary with filled_from_user := filled }
            calendar_event_created := some true
            event_info := some { title := title
                                 calendar_event_id := sync.calendar_event_id
                                 calendar_link := sync.calendar_link
                                 start_time := analysis.start_time
                                 end_time := analysis.end_time
                                 location := analysis.location } },
         [])
      else
        ({ base with
            summary := event_summary
            calendar_event_created := some false
            calendar_error := some (sync.error.getD "Unknown error") },
         [])
  else
    process_notion_branch analysis title notion_api_key c base

/-! ## Theorems -/

/-- `str` of a Python string is itself (the mutual rendering functions are
compiled by well-founded recursion, so this equation is registered for
rewriting). -/
@[simp] theorem pyStr_str (s : String) : pyStr (.str s) = s := by
  unfold pyStr
  rfl

/-- C9: the two copies of the value codec — `build_property_value` in the
Notion properties module and `_convert_to_notion_value` in the property
mapper — are extensionally equal: for every field type, value and field
schema they return the same result. -/
theorem codec_copies_agree (prop_type : String) (value : PyValue)
    (prop_info : PropInfo) :
    build_property_value prop_type value prop_info =
      convert_to_notion_value prop_type value prop_info := by
  cases value <;> rfl

/-- C2 (code bug): the date encoder claims (spec and in-source comment) to
preserve any explicit offset, but it only tests for a `+` character or a
trailing `Z`, so a negative UTC offset is silently truncated away, while a
positive offset is kept verbatim. -/
theorem date_negative_offset_truncated :
    build_property_value "date" (.str "2024-03-01T15:00:00-05:00") {} =
      some (.date "2024-03-01T15:00:00") ∧
    build_property_value "date" (.str "2024-03-01T15:00:00+01:00") {} =
      some (.date "2024-03-01T15:00:00+01:00") ∧
    build_property_value "date" (.str "2024-03-01T15:00:00Z") {} =
      some (.date "2024-03-01T15:00:00Z") := by
  refine ⟨?_, ?_, ?_⟩ <;> (unfold build_property_value; simp only [pyStr_str]; decide)

/-- C3 (amended): the mapper never raises (it is a total function here),
and on an internal failure it returns empty `properties` and
`filled_from_user` with the error text (or "Parse failed") as reasoning —
but its `left_empty` is the empty list, not the list of all eligible
fields. -/
theorem mapper_failure_outcome (dbp : List (String × PropInfo)) (e : String) :
    map_properties_dynamically true (.transportError e) dbp =
      { properties := [], filled_from_user := [], left_empty := [], ai_reasoning := e } ∧
    map_properties_dynamically true .parseFailed dbp =
      { properties := [], filled_from_user := [], left_empty := [], ai_reasoning := "Parse failed" } :=
  ⟨rfl, rfl⟩

/-- C3 (counterexample): a schema with one eligible field, and a transport
error from the reasoning collaborator: the returned `left_empty` is `[]`
even though the eligible-field list is non-empty, refuting
"empty = all eligible fields" on the failure path. -/
theorem mapper_failure_drops_eligible_fields :
    (map_properties_dynamically true (.transportError "boom")
        [("Note", { type := some "rich_text" })]).left_empty = [] ∧
    props_info [("Note", { type := some "rich_text" })] =
      [{ name := "Note", type := "rich_text", options := Option.none }] := by
  refine ⟨rfl, by decide⟩

/-- C1 (counterexample): on the no-reasoning-collaborator fallback the
mapper puts every schema key into `left_empty`, including a field whose
type is auto-computed ("created_time"), refuting the claim for that
path. -/
theorem mapper_fallback_lists_auto_field :
    autoGeneratedTypes.contains "created_time" = true ∧
    (map_properties_dynamically false .parseFailed
        [("Created At", { type := some "created_time" })]).left_empty =
      [.nameOnly "Created At"] := by
  refine ⟨by decide, rfl⟩

/-- Evaluation of the codec at type "status" for non-null values: the
case-insensitive (stripped) option scan, the first-option fallback, the
null result on empty options. -/
theorem build_status_eq (v : PyValue) (hv : v ≠ PyValue.none) (pi : PropInfo) :
    build_property_value "status" v pi =
      (match pi.options.find? (fun o => strLower o = strLower (strStrip (pyStr v))) with
       | some opt => some (.status opt)
       | Option.none =>
         match pi.options with
         | o :: _ => some (.status o)
         | [] => Option.none) := by
  cases v
  case none => exact absurd rfl hv
  all_goals rfl

/-- Evaluation of the codec at type "select" for non-null values. -/
theorem build_select_eq (v : PyValue) (hv : v ≠ PyValue.none) (pi : PropInfo) :
    build_property_value "select" v pi =
      (match pi.options.find? (fun o => strLower o = strLower (strStrip (pyStr v))) with
       | some opt => some (.select opt)
       | Option.none => some (.select (strTake (strStrip (pyStr v)) 100))) := by
  cases v
  case none => exact absurd rfl hv
  all_goals rfl

/-- C5: encoding a non-null value as a status field matches the stripped,
lowercased value against `allowed_options`: a hit yields the
canonical-cased option, a miss yields the first allowed option when any
exist and null otherwise; a single-select miss passes the (stripped)
string through, truncated to 100 characters. -/
theorem status_select_encoding (v : PyValue) (pi : PropInfo)
    (hv : v ≠ PyValue.none) :
    (∀ opt, pi.options.find? (fun o => strLower o = strLower (strStrip (pyStr v))) = some opt →
        build_property_value "status" v pi = some (.status opt)) ∧
    (pi.options.find? (fun o => strLower o = strLower (strStrip (pyStr v))) = Option.none →
        ∀ o rest, pi.options = o :: rest →
        build_property_value "status" v pi = some (.status o)) ∧
    (pi.options.find? (fun o => strLower o = strLower (strStrip (pyStr v))) = Option.none →
        pi.options = [] →
        build_property_value "status" v pi = Option.none) ∧
    (pi.options.find? (fun o => strLower o = strLower (strStrip (pyStr v))) = Option.none →
        build_property_value "select" v pi = some (.select (strTake (strStrip (pyStr v)) 100))) := by
  refine ⟨?_, ?_, ?_, ?_⟩
  · intro opt hopt
    rw [build_status_eq v hv pi, hopt]
  · intro hmiss o rest hcons
    rw [build_status_eq v hv pi, hmiss, hcons]
  · intro hmiss hnil
    rw [build_status_eq v hv pi, hmiss, hnil]
  · intro hmiss
    rw [build_select_eq v hv pi, hmiss]

/-- C5 witness: concrete evaluations through `status_select_encoding`. -/
theorem status_select_encoding_witness :
    build_property_value "status" (.str "done") { options := ["Todo", "Done"] } =
      some (.status "Done") ∧
    build_property_value "status" (.str "zzz") { options := ["Todo", "Done"] } =
      some (.status "Todo") ∧
    build_property_value "status" (.str "zzz") { options := [] } = Option.none ∧
    build_property_value "select" (.str "zzz") { options := ["Todo"] } =
      some (.select "zzz") := by
  refine ⟨?_, ?_, ?_, ?_⟩
  · exact (status_select_encoding (.str "done") { options := ["Todo", "Done"] }
      (fun h => PyValue.noConfusion h)).1 "Done" (by simp only [pyStr_str]; decide)
  · exact (status_select_encoding (.str "zzz") { options := ["Todo", "Done"] }
      (fun h => PyValue.noConfusion h)).2.1 (by simp only [pyStr_str]; decide) "Todo" ["Done"] rfl
  · exact (status_select_encoding (.str "zzz") { options := [] }
      (fun h => PyValue.noConfusion h)).2.2.1 (by simp only [pyStr_str]; decide) rfl
  · have h := (status_select_encoding (.str "zzz") { options := ["Todo"] }
      (fun h => PyValue.noConfusion h)).2.2.2 (by simp only [pyStr_str]; decide)
    rw [h]
    simp only [pyStr_str]
    decide

/-- The second codec copy returns null on every auto-generated property
type, whatever the value and schema. -/
theorem convert_auto_none (ty : String) (hty : ty ∈ autoGeneratedTypes)
    (v : PyValue) (pi : PropInfo) :
    convert_to_notion_value ty v pi = Option.none := by
  simp only [autoGeneratedTypes, List.mem_cons, List.not_mem_nil, or_false] at hty
  rcases hty with rfl | rfl | rfl | rfl | rfl | rfl
  all_goals (cases v <;> rfl)

/-- Members of a Python dictionary assignment are the new pair or old
members. -/
theorem dictSet_mem {α : Type} (m : List (String × α)) (k : String) (v : α)
    (p : String × α) (hp : p ∈ dictSet m k v) : p = (k, v) ∨ p ∈ m := by
  unfold dictSet at hp
  by_cases h : m.any (fun q => q.1 = k)
  · rw [if_pos h] at hp
    rcases List.mem_map.mp hp with ⟨q, hq, hqe⟩
    by_cases hqk : q.1 = k
    · left; rw [← hqe, if_pos hqk]
    · right; rw [← hqe, if_neg hqk]; exact hq
  · rw [if_neg h] at hp
    rcases List.mem_append.mp hp with h1 | h1
    · right; exact h1
    · left; simpa using h1

/-- One mapper-loop step either leaves the accumulator unchanged or adds
one pair whose schema entry was looked up and encoded successfully. -/
theorem mapper_step_shape (dbp : List (String × PropInfo))
    (acc : List (String × NotionValue) × List FilledFromUser) (m : MapMapping) :
    mapper_step dbp acc m = acc ∨
    ∃ pname pinfo nv,
      List.lookup pname dbp = some pinfo ∧
      convert_to_notion_value (pinfo.type.getD "rich_text") m.value pinfo = some nv ∧
      mapper_step dbp acc m =
        (dictSet acc.1 pname nv,
         acc.2 ++ [{ property := pname
                     value := strTake (pyStr m.value) 100
                     source := m.source.getD "ai"
                     reasoning := m.reasoning.getD ""
                     type := pinfo.type.getD "rich_text" }]) := by
  unfold mapper_step
  cases hp : m.property with
  | none => exact Or.inl rfl
  | some pname =>
    dsimp only
    by_cases he : pname = ""
    · rw [if_pos he]; exact Or.inl rfl
    · rw [if_neg he]
      by_cases hn : pyIsNone m.value = true
      · rw [if_pos hn]; exact Or.inl rfl
      · rw [if_neg hn]
        cases hl : List.lookup pname dbp with
        | none => exact Or.inl rfl
        | some pinfo =>
          dsimp only
          cases hc : convert_to_notion_value (pinfo.type.getD "rich_text") m.value pinfo with
          | none => exact Or.inl rfl
          | some nv => exact Or.inr ⟨pname, pinfo, nv, hl, hc, rfl⟩

/-- Folding the mapper loop preserves the "looked-up, non-auto type"
invariant of the accumulated properties and filled list. -/
theorem mapper_fold_auto (dbp : List (String × PropInfo)) (ms : List MapMapping)
    (acc : List (String × NotionValue) × List FilledFromUser)
    (h1 : ∀ p ∈ acc.1, ∃ pi, List.lookup p.1 dbp = some pi ∧
        (pi.type.getD "rich_text") ∉ autoGeneratedTypes)
    (h2 : ∀ f ∈ acc.2, f.type ∉ autoGeneratedTypes) :
    (∀ p ∈ (ms.foldl (mapper_step dbp) acc).1, ∃ pi, List.lookup p.1 dbp = some pi ∧
        (pi.type.getD "rich_text") ∉ autoGeneratedTypes) ∧
    (∀ f ∈ (ms.foldl (mapper_step dbp) acc).2, f.type ∉ autoGeneratedTypes) := by
  induction ms generalizing acc with
  | nil => exact ⟨h1, h2⟩
  | cons m ms ih =>
    rw [List.foldl_cons]
    rcases mapper_step_shape dbp acc m with hs | ⟨pname, pinfo, nv, hl, hc, hs⟩
    · rw [hs]; exact ih acc h1 h2
    · rw [hs]
      apply ih
      · intro p hp
        rcases dictSet_mem _ _ _ _ hp with rfl | hp
        · refine ⟨pinfo, hl, fun ha => ?_⟩
          rw [convert_auto_none _ ha m.value pinfo] at hc
          exact Option.noConfusion hc
        · exact h1 p hp
      · intro f hf
        rcases List.mem_append.mp hf with hf | hf
        · exact h2 f hf
        · rw [List.mem_singleton] at hf
          subst hf
          intro ha
          rw [convert_auto_none _ ha m.value pinfo] at hc
          exact Option.noConfusion hc

/-- C1 (amended): auto-computed field types never enter the offer list
shown to the reasoning collaborator, and no field of an auto-computed
type can ever appear in the returned `properties` or `filled_from_user`
(the codec returns null for those types, on every path); `left_empty` is
not covered — the fallback and the reply's unmapped list can name
auto-computed fields there. -/
theorem mapper_auto_fields_excluded (ca : Bool) (reply : AIOutcome MapReplyParsed)
    (dbp : List (String × PropInfo)) :
    (∀ o ∈ props_info dbp, o.type ∉ autoGeneratedTypes) ∧
    (∀ p ∈ (map_properties_dynamically ca reply dbp).properties,
        ∃ pi, List.lookup p.1 dbp = some pi ∧
          (pi.type.getD "rich_text") ∉ autoGeneratedTypes) ∧
    (∀ f ∈ (map_properties_dynamically ca reply dbp).filled_from_user,
        f.type ∉ autoGeneratedTypes) := by
  refine ⟨?_, ?_, ?_⟩
  · intro o ho
    simp only [props_info, List.mem_map, List.mem_filter] at ho
    rcases ho with ⟨p, ⟨_, hnot⟩, rfl⟩
    simpa using hnot
  · intro p hp
    cases ca with
    | false => simp [map_properties_dynamically] at hp
    | true =>
      cases reply with
      | transportError e => simp [map_properties_dynamically] at hp
      | parseFailed => simp [map_properties_dynamically] at hp
      | ok r =>
        refine (mapper_fold_auto dbp r.mappings ([], []) (by simp) (by simp)).1 p ?_
        simpa [map_properties_dynamically] using hp
  · intro f hf
    cases ca with
    | false => simp [map_properties_dynamically] at hf
    | true =>
      cases reply with
      | transportError e => simp [map_properties_dynamically] at hf
      | parseFailed => simp [map_properties_dynamically] at hf
      | ok r =>
        refine (mapper_fold_auto dbp r.mappings ([], []) (by simp) (by simp)).2 f ?_
        simpa [map_properties_dynamically] using hf

/-- Evaluation of the selector on a non-empty candidate list with an
available collaborator and a parsed reply. -/
theorem select_ok_eq (dbs : List Database) (r : SelectorReplyParsed)
    (hne : dbs.isEmpty = false) :
    select_best_database true (.ok r) dbs =
      (match r.selected_index with
       | some i =>
         if r.found_match ∧ 0 ≤ i ∧ i < (dbs.length : ℤ) ∧ r.confidence ≥ 1 / 2 then
           { success := true
             database := dbs.get? i.toNat
             reason := r.reason
             confidence := r.confidence }
         else
           { success := false, database := Option.none
             reason := r.reason, confidence := r.confidence }
       | Option.none =>
         { success := false, database := Option.none
           reason := r.reason, confidence := r.confidence }) := by
  unfold select_best_database
  rw [if_neg (by simp [hne]), if_neg (by simp)]

/-- C4: for a non-empty candidate list and a parsed structured reply, the
selector succeeds exactly when the match flag is true, the index is in
range, and the confidence is at least 0.5; on failure the supplied
(defaulted) reason and the returned confidence are passed through. -/
theorem selector_acceptance (dbs : List Database) (r : SelectorReplyParsed)
    (h : dbs ≠ []) :
    ((select_best_database true (.ok r) dbs).success = true ↔
        r.found_match = true ∧ ∃ i, r.selected_index = some i ∧
          0 ≤ i ∧ i < (dbs.length : ℤ) ∧ r.confidence ≥ 1 / 2) ∧
    ((select_best_database true (.ok r) dbs).success = false →
        (select_best_database true (.ok r) dbs).reason = r.reason ∧
        (select_best_database true (.ok r) dbs).confidence = r.confidence) := by
  have hne : dbs.isEmpty = false := by
    cases dbs with
    | nil => exact absurd rfl h
    | cons a t => rfl
  rw [select_ok_eq dbs r hne]
  cases hi : r.selected_index with
  | none => simp
  | some i =>
    dsimp only
    by_cases hcond : (r.found_match : Prop) ∧ 0 ≤ i ∧ i < (dbs.length : ℤ) ∧
        r.confidence ≥ 1 / 2
    · rw [if_pos hcond]
      constructor
      · constructor
        · intro _
          exact ⟨hcond.1, i, rfl, hcond.2.1, hcond.2.2.1, hcond.2.2.2⟩
        · intro _; rfl
      · intro hfalse; simp at hfalse
    · rw [if_neg hcond]
      constructor
      · constructor
        · intro hs; simp at hs
        · rintro ⟨hm, j, hsome, h0, hlen, hconf⟩
          injection hsome with hij
          subst hij
          exact absurd ⟨hm, h0, hlen, hconf⟩ hcond
      · intro _; exact ⟨rfl, rfl⟩

/-- C4 witness: one candidate; confidence exactly 0.5 with a true flag
and index 0 succeeds, confidence 0.49 fails even with a true flag, and
the failure passes reason and confidence through. -/
theorem selector_acceptance_witness :
    (select_best_database true
        (.ok { found_match := true, selected_index := some 0
               confidence := 1 / 2, reason := "fits" })
        [{ id := "d1", title := "Tasks" }]).success = true ∧
    (select_best_database true
        (.ok { found_match := true, selected_index := some 0
               confidence := 49 / 100, reason := "weak" })
        [{ id := "d1", title := "Tasks" }]).success = false ∧
    (select_best_database true
        (.ok { found_match := true, selected_index := some 0
               confidence := 49 / 100, reason := "weak" })
        [{ id := "d1", title := "Tasks" }]).reason = "weak" := by
  refine ⟨?_, ?_, ?_⟩
  · exact (selector_acceptance [{ id := "d1", title := "Tasks" }]
      { found_match := true, selected_index := some 0, confidence := 1 / 2, reason := "fits" }
      (by simp)).1.mpr ⟨rfl, 0, rfl, by norm_num, by norm_num, by norm_num⟩
  · by_contra hs
    have h := (selector_acceptance [{ id := "d1", title := "Tasks" }]
      { found_match := true, selected_index := some 0, confidence := 49 / 100, reason := "weak" }
      (by simp)).1.mp (by simpa using hs)
    rcases h with ⟨_, i, hsome, _, _, hconf⟩
    cases hsome
    norm_num at hconf
  · have hfail : (select_best_database true
        (.ok { found_match := true, selected_index := some 0
               confidence := 49 / 100, reason := "weak" })
        [{ id := "d1", title := "Tasks" }]).success = false := by
      by_contra hs
      have h := (selector_acceptance [{ id := "d1", title := "Tasks" }]
        { found_match := true, selected_index := some 0, confidence := 49 / 100, reason := "weak" }
        (by simp)).1.mp (by simpa using hs)
      rcases h with ⟨_, i, hsome, _, _, hconf⟩
      cases hsome
      norm_num at hconf
    exact ((selector_acceptance [{ id := "d1", title := "Tasks" }]
      { found_match := true, selected_index := some 0, confidence := 49 / 100, reason := "weak" }
      (by simp)).2 hfail).1

/-- C7: with a non-empty candidate list and no reasoning collaborator the
selector succeeds with the first candidate, confidence exactly 0.3, and a
reason recording the degraded mode. -/
theorem selector_degraded_first_candidate (reply : AIOutcome SelectorReplyParsed)
    (dbs : List Database) (h : dbs ≠ []) :
    (select_best_database false reply dbs).success = true ∧
    (select_best_database false reply dbs).database = some (dbs.head h) ∧
    (select_best_database false reply dbs).confidence = 3 / 10 ∧
    (select_best_database false reply dbs).reason =
      "OpenAI not configured - using first database" := by
  have hne : dbs.isEmpty = false := by
    cases dbs with
    | nil => exact absurd rfl h
    | cons a t => rfl
  unfold select_best_database
  rw [if_neg (by simp [hne]), if_pos (by simp)]
  refine ⟨rfl, ?_, rfl, rfl⟩
  cases dbs with
  | nil => exact absurd rfl h
  | cons a t => rfl

/-- C7 witness: applying the degraded-mode theorem to a concrete
candidate list and transport-error reply. -/
theorem selector_degraded_first_candidate_witness :
    (select_best_database false (.transportError "down")
        [{ id := "d1", title := "Tasks" }, { id := "d2", title := "Log" }]).database =
      some { id := "d1", title := "Tasks" } ∧
    (select_best_database false (.transportError "down")
        [{ id := "d1", title := "Tasks" }, { id := "d2", title := "Log" }]).confidence = 3 / 10 :=
  ⟨((selector_degraded_first_candidate (.transportError "down")
      [{ id := "d1", title := "Tasks" }, { id := "d2", title := "Log" }] (by simp))).2.1,
   ((selector_degraded_first_candidate (.transportError "down")
      [{ id := "d1", title := "Tasks" }, { id := "d2", title := "Log" }] (by simp))).2.2.1⟩

/-- C8: for an event capture with valid credentials whose start and end
times both fail to parse (absent or unparseable), the built event record
defaults to the 09:00-10:00 local window of the current day; title,
description and location pass through from the event data the
orchestrator builds out of the classification. -/
theorem calendar_default_window
    (parse : Option String → Option LocalDateTime) (now : LocalDateTime)
    (tz : String) (ed : EventData)
    (hcat : ed.category = some "event")
    (hs : parse (pyOr ed.start_date ed.start_time) = Option.none)
    (he : parse (pyOr ed.end_date ed.end_time) = Option.none) :
    create_calendar_event true parse now tz ed =
      .created
        { summary := ed.title.getD "Untitled Event"
          description := ed.description
          startLocal := { now with hour := 9, minute := 0, second := 0, microsecond := 0 }
          endLocal := { now with hour := 10, minute := 0, second := 0, microsecond := 0 }
          timeZone := tz
          location :=
            match ed.location with
            | some l => if l = "" then Option.none else some l
            | Option.none => Option.none } := by
  unfold create_calendar_event
  rw [if_neg (by simp), if_neg (by simp [hcat])]
  dsimp only
  rw [hs, he]
  unfold addHours
  norm_num

/-- C8 witness: a concrete "nothing parses" run through
`calendar_default_window`. -/
theorem calendar_default_window_witness :
    create_calendar_event true (fun _ => Option.none)
        { day := 100, hour := 13, minute := 30, second := 5, microsecond := 1 } "UTC"
        { category := some "event", title := some "Dentist"
          description := some "Checkup", location := some "Berlin" } =
      .created
        { summary := "Dentist", description := some "Checkup"
          startLocal := { day := 100, hour := 9, minute := 0, second := 0, microsecond := 0 }
          endLocal := { day := 100, hour := 10, minute := 0, second := 0, microsecond := 0 }
          timeZone := "UTC", location := some "Berlin" } := by
  have h := calendar_default_window (fun _ => Option.none)
    { day := 100, hour := 13, minute := 30, second := 5, microsecond := 1 } "UTC"
    { category := some "event", title := some "Dentist"
      description := some "Checkup", location := some "Berlin" }
    rfl rfl rfl
  rw [h]
  rfl

/-- Replacing the value at key `k` leaves lookups of any other key
unchanged. -/
theorem lookup_map_replace {α : Type} (t : List (String × α)) (k q : String)
    (v : α) (h : q ≠ k) :
    List.lookup q (t.map (fun p => if p.1 = k then (k, v) else p)) =
      List.lookup q t := by
  induction t with
  | nil => rfl
  | cons a t ih =>
    by_cases ha : a.1 = k
    · rw [List.map_cons, if_pos ha]
      have hbq : (q == k) = false := by simp [h]
      have hbq2 : (q == a.1) = false := by simp [ha ▸ h]
      simp only [List.lookup, hbq, hbq2, ih]
    · rw [List.map_cons, if_neg ha]
      cases a with
      | mk a1 a2 => simp only [List.lookup, ih]

/-- Appending a pair with a different key leaves a lookup unchanged. -/
theorem lookup_append_single {α : Type} (m : List (String × α)) (k q : String)
    (v : α) (h : q ≠ k) :
    List.lookup q (m ++ [(k, v)]) = List.lookup q m := by
  induction m with
  | nil =>
    have hbq : (q == k) = false := by simp [h]
    simp [List.lookup, hbq]
  | cons a t ih =>
    cases a with
    | mk a1 a2 =>
      cases hqa : (q == a1) <;> simp [List.lookup, hqa, ih]

/-- Python dictionary assignment at key `k` does not change the value
looked up at any other key. -/
theorem dictSet_lookup_ne {α : Type} (m : List (String × α)) (k q : String)
    (v : α) (h : q ≠ k) :
    List.lookup q (dictSet m k v) = List.lookup q m := by
  unfold dictSet
  by_cases hany : m.any (fun p => p.1 = k)
  · rw [if_pos hany]; exact lookup_map_replace m k q v h
  · rw [if_neg hany]; exact lookup_append_single m k q v h

/-- One enrichment step never changes the stored value at a key it does
not successfully encode for. -/
theorem enrich_step_frame (schema : List (String × PropInfo))
    (acc : EnrichApplyResult) (pv : String × PyValue) (q : String)
    (h : pv.1 = q →
        build_property_value
          (((List.lookup q schema).getD {}).type.getD "rich_text") pv.2
          ((List.lookup q schema).getD {}) = Option.none) :
    List.lookup q (enrich_step schema acc pv).properties =
      List.lookup q acc.properties := by
  unfold enrich_step
  by_cases hn : pyIsNone pv.2 = true
  · rw [if_pos hn]
  · rw [if_neg hn]
    by_cases hq : pv.1 = q
    · rw [hq, h hq]
    · cases hb : build_property_value
          (((List.lookup pv.1 schema).getD {}).type.getD "rich_text") pv.2
          ((List.lookup pv.1 schema).getD {}) with
      | none => rfl
      | some nv =>
        dsimp only
        exact dictSet_lookup_ne acc.properties pv.1 q nv (fun hqe => hq hqe.symm)

/-- C10: `apply_enriched_properties` is a frame around the existing
mapping: for any field name for which no enriched entry encodes to a
non-null value (absent, null, or failing the codec), the returned
properties carry exactly the value the input carried; the embedding is
pure, so the input map itself is never mutated. -/
theorem enrich_frame_preserves_unenriched
    (existing : List (String × NotionValue))
    (enriched : List (String × PyValue))
    (schema : List (String × PropInfo)) (q : String)
    (h : ∀ v, (q, v) ∈ enriched →
        build_property_value
          (((List.lookup q schema).getD {}).type.getD "rich_text") v
          ((List.lookup q schema).getD {}) = Option.none) :
    List.lookup q (apply_enriched_properties existing enriched schema).properties =
      List.lookup q existing := by
  unfold apply_enriched_properties
  suffices hgen : ∀ acc : EnrichApplyResult,
      (∀ v, (q, v) ∈ enriched →
        build_property_value
          (((List.lookup q schema).getD {}).type.getD "rich_text") v
          ((List.lookup q schema).getD {}) = Option.none) →
      List.lookup q (enriched.foldl (enrich_step schema) acc).properties =
        List.lookup q acc.properties by
    exact hgen { properties := existing, filled_by_ai := [] } h
  clear h
  induction enriched with
  | nil => intro acc _; rfl
  | cons pv rest ih =>
    intro acc h
    rw [List.foldl_cons]
    rw [ih (enrich_step schema acc pv) (fun v hv => h v (List.mem_cons_of_mem pv hv))]
    refine enrich_step_frame schema acc pv q (fun hq => ?_)
    refine h pv.2 ?_
    rw [← hq]
    exact List.mem_cons_self pv rest

/-- C10 witness: an enriched value that fails to encode ("abc" as a
number) leaves the existing mapping's lookup unchanged. -/
theorem enrich_frame_preserves_unenriched_witness :
    List.lookup "Score"
      (apply_enriched_properties [("Name", .title "X")]
        [("Score", .str "abc"), ("Flag", PyValue.none)]
        [("Score", { type := some "number" })]).properties =
      List.lookup "Score" [("Name", NotionValue.title "X")] := by
  refine enrich_frame_preserves_unenriched
    [("Name", .title "X")] [("Score", .str "abc"), ("Flag", PyValue.none)]
    [("Score", { type := some "number" })] "Score" ?_
  intro v hv
  rcases List.mem_cons.mp hv with h1 | h1
  · have hv2 : v = PyValue.str "abc" := congrArg Prod.snd h1
    subst hv2
    unfold build_property_value
    simp only [pyStr_str]
    decide
  · rcases List.mem_cons.mp h1 with h2 | h2
    · have hnames : "Score" = "Flag" := congrArg Prod.fst h2
      exact absurd hnames (by decide)
    · exact absurd h2 (List.not_mem_nil _)

/-- C6: when the selector fails for a capture routed to the document
store (non-event category, key present, candidates fetched), the result
carries the "No suitable database found" error and the
destination-selection-failed flag, and exactly one audit write is
attempted when a log-like destination exists among the fetched
candidates (none otherwise). -/
theorem selection_failure_marks_and_logs
    (analysis : Analysis) (st : String) (key : String) (gt : Bool)
    (c : Collaborators)
    (hcat : analysis.category.getD "other" ≠ "event")
    (hkey : key ≠ "")
    (hdbs : c.fetch_databases ≠ [])
    (hsel : (select_best_database c.selectorClientAvailable c.selectorReply
        c.fetch_databases).success = false) :
    (process_capture_result analysis st (some key) gt c).1.notion_error =
      some ("No suitable database found: " ++
        (select_best_database c.selectorClientAvailable c.selectorReply
          c.fetch_databases).reason) ∧
    (process_capture_result analysis st (some key) gt c).1.notion_created =
      some false ∧
    (process_capture_result analysis st (some key) gt c).1.summary.database_selection_failed =
      some true ∧
    (process_capture_result analysis st (some key) gt c).2.length =
      (if (detect_log_database c.fetch_databases).isSome then 1 else 0) := by
  have hk : truthyStr (some key) = true := by
    simp [truthyStr, hkey]
  have hne : c.fetch_databases.isEmpty = false := by
    cases hfd : c.fetch_databases with
    | nil => exact absurd hfd hdbs
    | cons a t => rfl
  unfold process_capture_result
  try dsimp only
  rw [if_neg hcat]
  unfold process_notion_branch
  try dsimp only
  rw [if_neg (not_not_intro hk)]
  try dsimp only
  rw [if_neg (by simp [hne])]
  try dsimp only
  rw [if_pos (by simp [hsel])]
  try dsimp only
  refine ⟨rfl, rfl, rfl, ?_⟩
  cases hld : detect_log_database c.fetch_databases with
  | none => rfl
  | some x => rfl

/-- Concrete collaborator bundle for the audit-on-failure witness: one
candidate whose title is log-like and a parsed reply that matches
nothing. -/
def logFailureCollaborators : Collaborators :=
  { fetch_databases := [{ id := "db1", title := "Activity Log" }]
    selectorClientAvailable := true
    selectorReply := .ok {}
    fetch_database_properties := fun _ => []
    mapperClientAvailable := false
    mapperReply := .parseFailed
    identify_researchable := fun _ => []
    enrich := fun _ => []
    create_page := fun _ _ => {}
    calendar_sync := fun _ => {}
    now_iso := "2024-01-01T00:00:00+00:00"
    google_status := {}
    notion_status := {} }

/-- C6 witness: the concrete failed selection marks the failure and
attempts exactly one audit write against the log-like candidate. -/
theorem selection_failure_marks_and_logs_witness :
    (process_capture_result {} "text" (some "k") false
        logFailureCollaborators).1.summary.database_selection_failed = some true ∧
    (process_capture_result {} "text" (some "k") false
        logFailureCollaborators).2.length = 1 := by
  have h := selection_failure_marks_and_logs {} "text" "k" false
    logFailureCollaborators (by decide) (by decide) (by decide) (by decide)
  refine ⟨h.2.2.1, ?_⟩
  rw [h.2.2.2]
  decide

end NotionCapture
